import Mathlib

/-!
Shallow embedding of the core of `aws-spot-advisor-sejto` (filters, data
models, dataset cache, selection pipeline), together with theorems settling
the specification claims about it.

Python strings are modelled as Lean `String` (manipulated through their
character lists), Python ints as `Int`, Python floats as `ℚ` (the code only
ever compares them, so the exact-order abstraction is faithful apart from
NaN/infinity, which the dataset does not contain), Python dicts as
association lists with insertion order, and exceptions as `Except`.
-/

namespace Sejto

/-- Errors raised by the instance-type helpers in `lib/filters.py`
(`ValueError` with the two distinct messages used by the source). -/
inductive EC2ParseError where
  | unexpected_instance_type
  | unable_to_parse
deriving DecidableEq, Repr

/-- Python `str.split(sep)` for a one-character separator: keeps empty
chunks, and the empty string splits to `[""]`. -/
def pySplit (sep : Char) : List Char → List (List Char)
  | [] => [[]]
  | c :: rest =>
    let r := pySplit sep rest
    if c = sep then
      [] :: r
    else
      match r with
      | [] => [[c]]
      | h :: t => (c :: h) :: t

/-- Character class `[a-z]` under `re.I`: ASCII letters of either case. -/
def isPyAlpha (c : Char) : Bool :=
  ('a' ≤ c && c ≤ 'z') || ('A' ≤ c && c ≤ 'Z')

/-- Character class `[0-9]`. -/
def isPyDigit (c : Char) : Bool :=
  '0' ≤ c && c ≤ '9'

/-- Python `str.lower()` on one ASCII character. -/
def pyLowerChar (c : Char) : Char :=
  if 'A' ≤ c && c ≤ 'Z' then Char.ofNat (c.toNat + 32) else c

/-- Python `str.lower()` (the identifiers involved are ASCII). -/
def pyLower (s : List Char) : List Char :=
  s.map pyLowerChar

/-- Semantics of `RE_EC2IT1 = ^(?P<series>[a-z]+)(?P<gen>[0-9]+)(?P<opts>.*)`
with `re.I`, used via `.search` (hence anchored at the start only).
`[a-z]+` greedily takes the maximal letter prefix (letters and digits are
disjoint, so no backtracking can succeed otherwise), `[0-9]+` takes the
maximal digit run and must be non-empty, and `.*` takes everything up to a
newline. Returns the `series`, `gen` and `opts` groups. -/
def re_ec2it1 (fam : List Char) : Option (List Char × List Char × List Char) :=
  let series := fam.takeWhile isPyAlpha
  let rest1 := fam.dropWhile isPyAlpha
  let gen := rest1.takeWhile isPyDigit
  let rest2 := rest1.dropWhile isPyDigit
  if !series.isEmpty && !gen.isEmpty then
    some (series, gen, rest2.takeWhile (fun c => c ≠ '\n'))
  else
    none

/-- Semantics of `RE_EC2IT2 = ^(?P<series>[a-z]+)\-(?P<opts>.+)` with `re.I`,
anchored at the start: maximal letter prefix, a literal hyphen, then at
least one non-newline character (greedy `.+`). Returns `series`, `opts`. -/
def re_ec2it2 (fam : List Char) : Option (List Char × List Char) :=
  let series := fam.takeWhile isPyAlpha
  let rest1 := fam.dropWhile isPyAlpha
  if series.isEmpty then
    none
  else
    match rest1 with
    | '-' :: rest2 =>
      let opts := rest2.takeWhile (fun c => c ≠ '\n')
      if opts.isEmpty then none else some (series, opts)
    | _ => none

/-- Embedding of `lib/filters.py: parse_ec2_instance_type`. Splits on `"."`,
requires exactly two chunks, tries `RE_EC2IT1` then `RE_EC2IT2`; the `gen`
group defaults to `"0"` when the second pattern matched (its groupdict has
no `gen` key); `series`, `opts` and the size chunk are lower-cased. -/
def parse_ec2_instance_type (instance_type : String) :
    Except EC2ParseError (String × String × String × String) :=
  match pySplit '.' instance_type.data with
  | [fam, size] =>
    match re_ec2it1 fam with
    | some (series, gen, opts) =>
      Except.ok (⟨pyLower series⟩, ⟨gen⟩, ⟨pyLower opts⟩, ⟨pyLower size⟩)
    | none =>
      match re_ec2it2 fam with
      | some (series, opts) =>
        Except.ok (⟨pyLower series⟩, "0", ⟨pyLower opts⟩, ⟨pyLower size⟩)
      | none => Except.error EC2ParseError.unable_to_parse
  | _ => Except.error EC2ParseError.unexpected_instance_type

/-- Embedding of `lib/filters.py: filter_by_regex`. A compiled regex is
abstracted as its `search` membership test `String → Bool`; `None` patterns
are `none`. If an include pattern is set the exclude pattern is ignored. -/
def filter_by_regex (input_data : String)
    (re_exclude : Option (String → Bool))
    (re_include : Option (String → Bool)) : Bool :=
  match re_include with
  | some re_inc => if re_inc input_data then true else false
  | none =>
    match re_exclude with
    | some re_exc => if re_exc input_data then false else true
    | none => true

/-- Embedding of `lib/filters.py: filter_instance_type`: parse the
identifier into facets and apply the three include/exclude pairs; an
unparseable identifier is kept (`return True` in the `except ValueError`
handler). -/
def filter_instance_type (instance_type : String)
    (re_exclude_instance_series re_include_instance_series
     re_exclude_instance_generations re_include_instance_generations
     re_exclude_instance_options re_include_instance_options :
       Option (String → Bool)) : Bool :=
  match parse_ec2_instance_type instance_type with
  | Except.error _ => true
  | Except.ok (series, gen, options, _) =>
    let keep_series :=
      filter_by_regex series re_exclude_instance_series
        re_include_instance_series
    let keep_gen :=
      filter_by_regex gen re_exclude_instance_generations
        re_include_instance_generations
    let keep_options :=
      filter_by_regex options re_exclude_instance_options
        re_include_instance_options
    if !keep_series || !keep_gen || !keep_options then false else true

/-- Embedding of `lib/filters.py: filter_inters`. -/
def filter_inters (inters inters_min inters_max : Int) : Bool :=
  if inters ≥ inters_min ∧ inters ≤ inters_max then true else false

/-- Embedding of `lib/filters.py: filter_mem` (floats as exact rationals;
the source only compares). -/
def filter_mem (mem_gb mem_min mem_max : ℚ) : Bool :=
  if mem_gb ≥ mem_min ∧ mem_gb ≤ mem_max then true else false

/-- Embedding of `lib/filters.py: filter_savings`. -/
def filter_savings (savings savings_min savings_max : Int) : Bool :=
  if savings ≥ savings_min ∧ savings ≤ savings_max then true else false

/-- Embedding of `lib/filters.py: filter_vcpu`. -/
def filter_vcpu (vcpus vcpu_min vcpu_max : Int) : Bool :=
  if vcpus ≥ vcpu_min ∧ vcpus ≤ vcpu_max then true else false

/-- Embedding of `lib/filters.py: filter_emr`. -/
def filter_emr (emr_supported : Bool) (emr_only : Bool) : Bool :=
  if !emr_only then true else emr_supported

/-- Unanchored regex search for a literal pattern: does `p` occur as a
contiguous substring of `s`? -/
def literal_search (p s : List Char) : Bool :=
  (List.range (s.length + 1)).any (fun i => p.isPrefixOf (s.drop i))

/-- Search semantics of `RE_METAL = re.compile(r"metal")` on a string. -/
def re_metal_search (s : List Char) : Bool :=
  literal_search "metal".data s

/-- Embedding of `lib/filters.py: include_instance_type`. Both exclusion
flags off short-circuits to keep; otherwise the identifier must split into
exactly two chunks (else `ValueError`), and the size chunk decides
bare-metal versus virtual machine. -/
def include_instance_type (instance_type : String)
    (exclude_metal : Bool) (exclude_vm : Bool) : Except EC2ParseError Bool :=
  if !exclude_metal && !exclude_vm then
    Except.ok true
  else
    match pySplit '.' instance_type.data with
    | [_, size] =>
      let is_metal := re_metal_search size
      if is_metal && exclude_metal then Except.ok false
      else if !is_metal && exclude_vm then Except.ok false
      else Except.ok true
    | _ => Except.error EC2ParseError.unexpected_instance_type

/-- Shape of the regex fragments used by the built-in facet catalogs in
`src/aws_spot_advisor_sejto/lib/models.py`: an optional negative lookbehind
(alternatives that must not end just before the match), a literal core, and
an optional negative lookahead (alternatives that must not start just after
the core). Every catalog pattern has this shape. -/
structure FacetPattern where
  negBehind : List String
  core : String
  negAhead : List String
deriving Repr

/-- Does the facet pattern match at position `i` of `s` (Python `re`
semantics of `(?<!b)core(?!a)` at a fixed position)? -/
def facet_matches_at (p : FacetPattern) (s : List Char) (i : Nat) : Bool :=
  p.core.data.isPrefixOf (s.drop i)
    && p.negBehind.all (fun b => !(b.data.isSuffixOf (s.take i)))
    && p.negAhead.all
        (fun a => !(a.data.isPrefixOf (s.drop (i + p.core.data.length))))

/-- Python `pattern.search(s)`: the pattern matches at some position. -/
def facet_search (p : FacetPattern) (s : String) : Bool :=
  (List.range (s.data.length + 1)).any (facet_matches_at p s.data)

/-- Embedding of `models.py: EC2InstanceTypeHelper`. -/
structure EC2InstanceTypeHelper where
  label : String
  desc : String
  pattern : FacetPattern
deriving Repr

/-- Embedding of `models.py: EC2InstanceType.list_series` (the dict is an
insertion-ordered association list; each regex fragment is transcribed into
its `FacetPattern` shape, e.g. `(?<!ma)c` becomes negBehind `["ma"]`, core
`"c"`, and `i(?!m|nf|s)` becomes core `"i"`, negAhead `["m","nf","s"]`). -/
def list_series : List (String × EC2InstanceTypeHelper) :=
  [("c", ⟨"C", "Compute optimized", ⟨["ma"], "c", []⟩⟩),
   ("d", ⟨"D", "Dense storage", ⟨[], "d", []⟩⟩),
   ("f", ⟨"F", "FPGA", ⟨["in"], "f", []⟩⟩),
   ("g", ⟨"G", "Graphics intensive", ⟨[], "g", []⟩⟩),
   ("hpc", ⟨"Hpc", "High performance computing", ⟨[], "hpc", []⟩⟩),
   ("im", ⟨"Im", "Storage optimized (1 to 4 ratio of vCPU to memory)",
     ⟨[], "im", []⟩⟩),
   ("inf", ⟨"Inf", "AWS Inferentia", ⟨[], "inf", []⟩⟩),
   ("is", ⟨"Is", "Storage optimized (1 to 6 ratio of vCPU to memory)",
     ⟨[], "is", []⟩⟩),
   ("i", ⟨"I", "Storage optimized", ⟨[], "i", ["m", "nf", "s"]⟩⟩),
   ("mac", ⟨"Mac", "macOS", ⟨[], "mac", []⟩⟩),
   ("m", ⟨"M", "General purpose", ⟨["i"], "m", ["ac"]⟩⟩),
   ("p", ⟨"P", "GPU accelerated", ⟨["h"], "p", ["c"]⟩⟩),
   ("r", ⟨"R", "Memory optimized", ⟨["t"], "r", ["n"]⟩⟩),
   ("t", ⟨"T", "Burstable performance", ⟨["v"], "t", ["rn"]⟩⟩),
   ("trn", ⟨"Trn", "AWS Trainium", ⟨[], "trn", []⟩⟩),
   ("u", ⟨"U", "High memory", ⟨[], "u", []⟩⟩),
   ("vt", ⟨"VT", "Video transcoding", ⟨[], "vt", []⟩⟩),
   ("x", ⟨"X", "Memory intensive", ⟨[], "x", []⟩⟩)]

/-- Compiled pattern of a series key in the catalog (patterns are present
for every key used by the theorems below; the empty-catalog default is
never reached there). -/
def series_pattern (key : String) : FacetPattern :=
  match list_series.find? (fun kv => kv.1 == key) with
  | some kv => kv.2.pattern
  | none => ⟨[], "", []⟩

/-- Mutable fields of `lib/dataset.py: DataSet` (the file name is fixed and
omitted; `data` holds the in-memory dataset, abstracted as the raw JSON
text, since the claims never look inside it). -/
structure DataSetState where
  data : String
  data_checksum : String
  http_etag : String
  http_last_modified : String
deriving Repr, DecidableEq

/-- Abstraction of an HTTP response as `DataSet.update` consumes it. -/
structure Rsp where
  status : Int
  headers : List (String × String)
  body : String

/-- Environment a run of `DataSet.update` executes in: the response the
remote serves to the n-th request issued during the run, the content of
the local dataset file (`none` when missing; reads all happen before the
single possible write, so a snapshot suffices), and whether writing the
local file succeeds. -/
structure World where
  rsps : Nat → Rsp
  file : Option String
  writeOk : Bool

/-- Abstract content hash standing in for `hashlib` SHA256 of file bytes. -/
def sha256_hex (content : String) : String :=
  String.append "sha256:" content

/-- Embedding of `DataSet.calc_checksum`: the digest of the local file, or
the empty string when the file cannot be read. -/
def calc_checksum (file : Option String) : String :=
  match file with
  | none => ""
  | some content => sha256_hex content

/-- Embedding of `DataSet.check_checksum`: an empty stored checksum is
invalid, otherwise the stored checksum must equal the file's digest. -/
def check_checksum (file : Option String) (st : DataSetState) : Bool :=
  if st.data_checksum = "" then false
  else if calc_checksum file ≠ st.data_checksum then false
  else true

/-- Embedding of `DataSet.make_caching_headers`. -/
def make_caching_headers (st : DataSetState) : List (String × String) :=
  (if st.http_etag ≠ "" then [("if-none-match", st.http_etag)] else []) ++
    (if st.http_last_modified ≠ ""
      then [("if-modified-since", st.http_last_modified)] else [])

/-- Python `str.lower()` on a whole string. -/
def pyLowerStr (s : String) : String :=
  ⟨pyLower s.data⟩

/-- Embedding of `DataSet.extract_caching_headers`: reset both tokens and
take the last `etag` / `last-modified` value under case-insensitive keys. -/
def extract_caching_headers (st : DataSetState)
    (headers : List (String × String)) : DataSetState :=
  headers.foldl
    (fun acc kv =>
      let key := pyLowerStr kv.1
      if key = "etag" then { acc with http_etag := kv.2 }
      else if key = "last-modified" then { acc with http_last_modified := kv.2 }
      else acc)
    { st with http_etag := "", http_last_modified := "" }

/-- Header list of one request as `get_data` builds it: the fixed
User-Agent followed by the caller's extra (conditional) headers. -/
def get_data_headers (extra_headers : List (String × String)) :
    List (String × String) :=
  ("User-Agent", "aws-spot-advisor-sejto") :: extra_headers

/-- Exceptions `DataSet.update` can raise: `RecursionError` on the second
consecutive 304 with no local file; `OSError` when the local write fails;
`ValueError` on any other HTTP status (the source's message formatting of
that `ValueError` would itself raise, but the exception class is the
same). Transport errors are not modelled: the `World` always answers. -/
inductive UpdateError where
  | recursionError
  | osError
  | valueError (status : Int)
deriving Repr, DecidableEq

/-- Outcome of a run of `DataSet.update`: the object state at return or at
the moment the exception escaped (Python mutates `self` in place), the
header lists of the HTTP requests issued, in order, and the result. -/
structure UpdateOut where
  state : DataSetState
  reqs : List (List (String × String))
  result : Except UpdateError Unit
deriving Repr

/-- Embedding of `DataSet.update` called with `is_retry=True` (the single
recursive retry call the source can make). The source is one function with
an `is_retry` flag and recursion depth at most one; its two instantiations
are materialized here as `update_retry` (this definition) and `update`
below, whose bodies differ exactly where the flag is consulted: with
`is_retry=True`, a 304 response combined with a missing local file raises
`RecursionError`.

Shared control flow, mirroring the source: compute conditional headers,
drop them if the checksum check fails, issue the request; on 304 load the
local file into `data`; on 200 replace `data` with the response body,
write the file (raising `OSError` if that fails, with `data` already
replaced), then recompute the checksum from the freshly written file; any
other status raises `ValueError`. After either success path the caching
tokens are extracted from the current response's headers. -/
def update_retry (w : World) (st : DataSetState) (reqIdx : Nat) :
    UpdateOut :=
  let caching_headers0 := make_caching_headers st
  let is_valid := check_checksum w.file st
  let caching_headers := if is_valid then caching_headers0 else []
  let rsp := w.rsps reqIdx
  let req := get_data_headers caching_headers
  if rsp.status = 304 then
    match w.file with
    | some content =>
      let st1 := { st with data := content }
      ⟨extract_caching_headers st1 rsp.headers, [req], Except.ok ()⟩
    | none =>
      ⟨st, [req], Except.error UpdateError.recursionError⟩
  else if rsp.status = 200 then
    let st1 := { st with data := rsp.body }
    if w.writeOk then
      let st2 := { st1 with data_checksum := sha256_hex rsp.body }
      ⟨extract_caching_headers st2 rsp.headers, [req], Except.ok ()⟩
    else
      ⟨st1, [req], Except.error UpdateError.osError⟩
  else
    ⟨st, [req], Except.error (UpdateError.valueError rsp.status)⟩

/-- Embedding of `DataSet.update` as called from the outside
(`is_retry=False`). Identical to `update_retry` except in the 304 branch
with a missing local file: there it clears `http_etag`,
`http_last_modified` and `data_checksum`, performs the retry, and — when
the retry succeeds — extracts the caching tokens from the *outer* (304)
response's headers, overwriting whatever the retry stored. -/
def update (w : World) (st : DataSetState) (reqIdx : Nat) : UpdateOut :=
  let caching_headers0 := make_caching_headers st
  let is_valid := check_checksum w.file st
  let caching_headers := if is_valid then caching_headers0 else []
  let rsp := w.rsps reqIdx
  let req := get_data_headers caching_headers
  if rsp.status = 304 then
    match w.file with
    | some content =>
      let st1 := { st with data := content }
      ⟨extract_caching_headers st1 rsp.headers, [req], Except.ok ()⟩
    | none =>
      let st1 := { st with
        http_etag := "", http_last_modified := "", data_checksum := "" }
      let inner := update_retry w st1 (reqIdx + 1)
      match inner.result with
      | Except.error e => ⟨inner.state, req :: inner.reqs, Except.error e⟩
      | Except.ok _ =>
        ⟨extract_caching_headers inner.state rsp.headers,
          req :: inner.reqs, Except.ok ()⟩
  else if rsp.status = 200 then
    let st1 := { st with data := rsp.body }
    if w.writeOk then
      let st2 := { st1 with data_checksum := sha256_hex rsp.body }
      ⟨extract_caching_headers st2 rsp.headers, [req], Except.ok ()⟩
    else
      ⟨st1, [req], Except.error UpdateError.osError⟩
  else
    ⟨st, [req], Except.error (UpdateError.valueError rsp.status)⟩

/-- Caching token the extraction leaves in `http_etag`, as a function of
the response headers alone. -/
def extracted_etag (headers : List (String × String)) : String :=
  (extract_caching_headers ⟨"", "", "", ""⟩ headers).http_etag

/-- Caching token the extraction leaves in `http_last_modified`, as a
function of the response headers alone. -/
def extracted_last_modified (headers : List (String × String)) : String :=
  (extract_caching_headers ⟨"", "", "", ""⟩ headers).http_last_modified

theorem extract_caching_headers_fold_congr
    (headers : List (String × String)) (a b : DataSetState)
    (he : a.http_etag = b.http_etag)
    (hl : a.http_last_modified = b.http_last_modified) :
    (headers.foldl
      (fun acc kv =>
        let key := pyLowerStr kv.1
        if key = "etag" then { acc with http_etag := kv.2 }
        else if key = "last-modified"
          then { acc with http_last_modified := kv.2 }
        else acc) a).http_etag =
    (headers.foldl
      (fun acc kv =>
        let key := pyLowerStr kv.1
        if key = "etag" then { acc with http_etag := kv.2 }
        else if key = "last-modified"
          then { acc with http_last_modified := kv.2 }
        else acc) b).http_etag ∧
    (headers.foldl
      (fun acc kv =>
        let key := pyLowerStr kv.1
        if key = "etag" then { acc with http_etag := kv.2 }
        else if key = "last-modified"
          then { acc with http_last_modified := kv.2 }
        else acc) a).http_last_modified =
    (headers.foldl
      (fun acc kv =>
        let key := pyLowerStr kv.1
        if key = "etag" then { acc with http_etag := kv.2 }
        else if key = "last-modified"
          then { acc with http_last_modified := kv.2 }
        else acc) b).http_last_modified := by
  induction headers generalizing a b with
  | nil => exact ⟨he, hl⟩
  | cons kv rest ih =>
    simp only [List.foldl_cons]
    by_cases h1 : pyLowerStr kv.1 = "etag"
    · simp only [h1, if_pos]
      exact ih _ _ rfl hl
    · by_cases h2 : pyLowerStr kv.1 = "last-modified"
      · simp only [h1, h2, if_neg, if_pos]
        exact ih _ _ he rfl
      · simp only [h1, h2, if_neg]
        exact ih _ _ he hl

/-- The caching tokens left by `extract_caching_headers` depend only on the
header list, not on the state it is applied to. -/
theorem extract_caching_headers_tokens (st : DataSetState)
    (headers : List (String × String)) :
    (extract_caching_headers st headers).http_etag =
      extracted_etag headers ∧
    (extract_caching_headers st headers).http_last_modified =
      extracted_last_modified headers := by
  unfold extract_caching_headers extracted_etag extracted_last_modified
    extract_caching_headers
  exact extract_caching_headers_fold_congr headers _ _ rfl rfl

/-- When the local dataset file is missing, the stored checksum never
validates (the computed digest is the empty string, and an empty stored
checksum is rejected outright). -/
theorem check_checksum_of_missing_file (st : DataSetState) :
    check_checksum none st = false := by
  unfold check_checksum
  by_cases h : st.data_checksum = ""
  · simp [h]
  · have h2 : calc_checksum none ≠ st.data_checksum := by
      unfold calc_checksum
      exact fun he => h he.symm
    simp [h, h2]

/-- A state whose caching tokens are cleared sends no conditional headers. -/
theorem make_caching_headers_cleared (st : DataSetState)
    (he : st.http_etag = "") (hl : st.http_last_modified = "") :
    make_caching_headers st = [] := by
  unfold make_caching_headers
  simp [he, hl]

/-- One entry of the dataset's `ranges` list. -/
structure InterRange where
  index : Int
  label : String
  max : Int
deriving Repr, DecidableEq

/-- One value of the `spot_advisor[region][os]` table:
`s` savings percentage, `r` interruption-range index. -/
structure SpotRec where
  s : Int
  r : Int
deriving Repr, DecidableEq

/-- One value of the `instance_types` table. -/
structure ITRec where
  emr : Bool
  cores : Int
  ram_gb : ℚ
deriving Repr, DecidableEq

/-- The parsed dataset as `select_data` consumes it; dicts become
insertion-ordered association lists. -/
structure SpotData where
  ranges : List InterRange
  spot_advisor : List (String × List (String × List (String × SpotRec)))
  instance_types : List (String × ITRec)

/-- Embedding of `lib/models.py: EC2InstanceType` (the result record). -/
structure EC2InstanceType where
  instance_type : String
  vcpus : Int
  mem_gb : ℚ
  emr : Bool
  savings : Int
  inter_label : String
  inter_max : Int
deriving Repr, DecidableEq

/-- Python dict lookup on an association list built with insertion order:
the last binding of a key wins. -/
def pyDictGet {κ α : Type} [BEq κ] (entries : List (κ × α)) (k : κ) :
    Option α :=
  (entries.filter (fun kv => kv.1 == k)).getLast?.map (fun kv => kv.2)

/-- Exceptions escaping `aws_spot_advisor_sejto.py: select_data`. The
`formatValueError` constructor stands for the `ValueError` that
`"{0:s}".format` raises when handed the int interruption-range index while
building the `DataProcessingException` message — the structured
`DataProcessingException` itself is never constructed, so it needs no
constructor here. -/
inductive SelectError where
  | keyError (index : Int)
  | keyErrorStr (key : String)
  | includeValueError
  | formatValueError
deriving Repr, DecidableEq

/-- Pre-filter comprehension of `select_data`: keep an entry when its
savings pass, resolving the interruption bound through the ranges lookup
(a missing index raises `KeyError` right here, before any structured
error could be built). -/
def pre_filter (interrupts : List (Int × InterRange))
    (savings_min savings_max inters_min inters_max : Int) :
    List (String × SpotRec) → Except SelectError (List (String × SpotRec))
  | [] => Except.ok []
  | (key, value) :: rest =>
    if filter_savings value.s savings_min savings_max then
      match pyDictGet interrupts value.r with
      | none => Except.error (SelectError.keyError value.r)
      | some ir =>
        if filter_inters ir.max inters_min inters_max then
          match pre_filter interrupts savings_min savings_max inters_min
              inters_max rest with
          | Except.error e => Except.error e
          | Except.ok tail => Except.ok ((key, value) :: tail)
        else
          pre_filter interrupts savings_min savings_max inters_min
            inters_max rest
    else
      pre_filter interrupts savings_min savings_max inters_min inters_max
        rest

/-- Arguments of `select_data` beyond the dataset (the parsed CLI
namespace restricted to the fields `select_data` reads). -/
structure SejtoArgs where
  region : String
  os : String
  vcpu_min : Int
  vcpu_max : Int
  mem_min : ℚ
  mem_max : ℚ
  emr_only : Bool
  inters_min : Int
  inters_max : Int
  savings_min : Int
  savings_max : Int
  exclude_metal : Bool
  exclude_vm : Bool

/-- Results comprehension of `select_data`: intersect the instance-type
metadata with the pre-filtered table and apply the metal/VM, vCPU, memory
and EMR predicates (in the source's short-circuit order; a `ValueError`
out of `include_instance_type` aborts the comprehension). -/
def build_results (available : List (String × SpotRec)) (args : SejtoArgs) :
    List (String × ITRec) →
      Except SelectError (List (String × EC2InstanceType))
  | [] => Except.ok []
  | (key, values) :: rest =>
    if (pyDictGet available key).isSome then
      match include_instance_type key args.exclude_metal args.exclude_vm with
      | Except.error _ => Except.error SelectError.includeValueError
      | Except.ok keep =>
        if keep && filter_vcpu values.cores args.vcpu_min args.vcpu_max
            && filter_mem values.ram_gb args.mem_min args.mem_max
            && filter_emr values.emr args.emr_only then
          match build_results available args rest with
          | Except.error e => Except.error e
          | Except.ok tail =>
            Except.ok
              ((key, ⟨key, values.cores, values.ram_gb, values.emr, 0, "", 0⟩)
                :: tail)
        else
          build_results available args rest
    else
      build_results available args rest

/-- Enrichment loop of `select_data`: resolve each surviving record's
interruption-range index again and attach savings, label and bound. When
the index is missing the source attempts to raise the structured
`DataProcessingException`, but evaluating the message's format call on the
int index raises `ValueError` first (`formatValueError`); the branch is in
fact unreachable for pipeline-produced inputs (see
`select_data_no_format_error`). -/
def enrich (interrupts : List (Int × InterRange))
    (available : List (String × SpotRec)) :
    List (String × EC2InstanceType) →
      Except SelectError (List (String × EC2InstanceType))
  | [] => Except.ok []
  | (key, entry) :: rest =>
    match pyDictGet available key with
    | none => Except.error (SelectError.keyErrorStr key)
    | some value =>
      let inter_range := value.r
      match pyDictGet interrupts inter_range with
      | none => Except.error SelectError.formatValueError
      | some ir =>
        match enrich interrupts available rest with
        | Except.error e => Except.error e
        | Except.ok tail =>
          Except.ok
            ((key, { entry with
                savings := value.s, inter_label := ir.label,
                inter_max := ir.max }) :: tail)

/-- Embedding of `aws_spot_advisor_sejto.py: select_data`. -/
def select_data (data : SpotData) (args : SejtoArgs) :
    Except SelectError (List (String × EC2InstanceType)) :=
  let interrupts := data.ranges.map (fun ir => (ir.index, ir))
  match pyDictGet data.spot_advisor args.region with
  | none => Except.error (SelectError.keyErrorStr args.region)
  | some regionTable =>
    match pyDictGet regionTable args.os with
    | none => Except.error (SelectError.keyErrorStr args.os)
    | some osTable =>
      match pre_filter interrupts args.savings_min args.savings_max
          args.inters_min args.inters_max osTable with
      | Except.error e => Except.error e
      | Except.ok available =>
        match build_results available args data.instance_types with
        | Except.error e => Except.error e
        | Except.ok results => enrich interrupts available results

/-- Technical lemma: a successful Python-dict lookup returns the value of
some entry of the association list. -/
theorem pyDictGet_mem {κ α : Type} [BEq κ] (entries : List (κ × α)) (k : κ)
    (v : α) (h : pyDictGet entries k = some v) :
    ∃ kv, kv ∈ entries ∧ kv.2 = v := by
  unfold pyDictGet at h
  cases hg : (entries.filter (fun kv => kv.1 == k)).getLast? with
  | none => rw [hg] at h; cases h
  | some kv =>
    rw [hg] at h
    refine ⟨kv, ?_, by injection h⟩
    have hin : kv ∈ (entries.filter (fun kv => kv.1 == k)).getLast? := by
      rw [hg]; rfl
    rcases List.mem_getLast?_eq_getLast hin with ⟨hne, heq⟩
    have hmem : kv ∈ entries.filter (fun kv => kv.1 == k) := by
      rw [heq]; exact List.getLast_mem hne
    exact List.mem_of_mem_filter hmem

/-- Every entry surviving the pre-filter had its interruption-range index
resolved successfully through the ranges lookup. -/
theorem pre_filter_lookup_isSome (interrupts : List (Int × InterRange))
    (smin smax imin imax : Int) :
    ∀ (entries avail : List (String × SpotRec)),
      pre_filter interrupts smin smax imin imax entries = Except.ok avail →
      ∀ kv, kv ∈ avail → (pyDictGet interrupts kv.2.r).isSome = true := by
  intro entries
  induction entries with
  | nil =>
    intro avail h kv hkv
    unfold pre_filter at h
    injection h with h'
    subst h'
    cases hkv
  | cons e rest ih =>
    intro avail h kv hkv
    obtain ⟨key, value⟩ := e
    unfold pre_filter at h
    by_cases hs : filter_savings value.s smin smax = true
    · rw [if_pos hs] at h
      cases hget : pyDictGet interrupts value.r with
      | none => simp only [hget] at h; cases h
      | some ir =>
        simp only [hget] at h
        by_cases hi : filter_inters ir.max imin imax = true
        · rw [if_pos hi] at h
          cases htail : pre_filter interrupts smin smax imin imax rest with
          | error e2 => simp only [htail] at h; cases h
          | ok tail =>
            simp only [htail] at h
            injection h with h'
            subst h'
            rcases List.mem_cons.mp hkv with hkv1 | hkv1
            · subst hkv1; simp [hget]
            · exact ih tail htail kv hkv1
        · rw [if_neg hi] at h
          exact ih avail h kv hkv
    · rw [if_neg hs] at h
      exact ih avail h kv hkv



/-- Lookup form of `pre_filter_lookup_isSome`. -/
theorem pre_filter_get_isSome (interrupts : List (Int × InterRange))
    (smin smax imin imax : Int)
    (entries avail : List (String × SpotRec))
    (h : pre_filter interrupts smin smax imin imax entries =
      Except.ok avail)
    (k : String) (v : SpotRec) (hget : pyDictGet avail k = some v) :
    (pyDictGet interrupts v.r).isSome = true := by
  obtain ⟨kv, hmem, hv⟩ := pyDictGet_mem avail k v hget
  have := pre_filter_lookup_isSome interrupts smin smax imin imax entries
    avail h kv hmem
  rwa [hv] at this

/-- Every record in the results table is keyed by an instance present in
the pre-filtered table. -/
theorem build_results_keys (available : List (String × SpotRec))
    (args : SejtoArgs) :
    ∀ (its : List (String × ITRec))
      (res : List (String × EC2InstanceType)),
      build_results available args its = Except.ok res →
      ∀ kr, kr ∈ res → (pyDictGet available kr.1).isSome = true := by
  intro its
  induction its with
  | nil =>
    intro res h kr hkr
    unfold build_results at h
    injection h with h'
    subst h'
    cases hkr
  | cons e rest ih =>
    intro res h kr hkr
    obtain ⟨key, values⟩ := e
    unfold build_results at h
    by_cases hin : (pyDictGet available key).isSome = true
    · rw [if_pos hin] at h
      cases hinc : include_instance_type key args.exclude_metal
          args.exclude_vm with
      | error e2 => simp only [hinc] at h; cases h
      | ok keep =>
        simp only [hinc] at h
        by_cases hf : (keep && filter_vcpu values.cores args.vcpu_min
            args.vcpu_max && filter_mem values.ram_gb args.mem_min
            args.mem_max && filter_emr values.emr args.emr_only) = true
        · rw [if_pos hf] at h
          cases htail : build_results available args rest with
          | error e2 => simp only [htail] at h; cases h
          | ok tail =>
            simp only [htail] at h
            injection h with h'
            subst h'
            rcases List.mem_cons.mp hkr with hkr1 | hkr1
            · subst hkr1; exact hin
            · exact ih tail htail kr hkr1
        · rw [if_neg hf] at h
          exact ih res h kr hkr
    · rw [if_neg hin] at h
      exact ih res h kr hkr

/-- The pre-filter itself can only raise `KeyError`, never the
format-call `ValueError`. -/
theorem pre_filter_not_format (interrupts : List (Int × InterRange))
    (smin smax imin imax : Int) :
    ∀ entries : List (String × SpotRec),
      pre_filter interrupts smin smax imin imax entries ≠
        Except.error SelectError.formatValueError := by
  intro entries
  induction entries with
  | nil => intro h; cases h
  | cons e rest ih =>
    obtain ⟨key, value⟩ := e
    intro h
    unfold pre_filter at h
    by_cases hs : filter_savings value.s smin smax = true
    · rw [if_pos hs] at h
      cases hget : pyDictGet interrupts value.r with
      | none => simp only [hget] at h; cases h
      | some ir =>
        simp only [hget] at h
        by_cases hi : filter_inters ir.max imin imax = true
        · rw [if_pos hi] at h
          cases htail : pre_filter interrupts smin smax imin imax rest with
          | error e2 =>
            simp only [htail] at h
            injection h with h'
            exact ih (htail.trans (by rw [h']))
          | ok tail => simp only [htail] at h; cases h
        · rw [if_neg hi] at h
          exact ih h
    · rw [if_neg hs] at h
      exact ih h

/-- The results comprehension never raises the format-call `ValueError`. -/
theorem build_results_not_format (available : List (String × SpotRec))
    (args : SejtoArgs) :
    ∀ its : List (String × ITRec),
      build_results available args its ≠
        Except.error SelectError.formatValueError := by
  intro its
  induction its with
  | nil => intro h; cases h
  | cons e rest ih =>
    obtain ⟨key, values⟩ := e
    intro h
    unfold build_results at h
    by_cases hin : (pyDictGet available key).isSome = true
    · rw [if_pos hin] at h
      cases hinc : include_instance_type key args.exclude_metal
          args.exclude_vm with
      | error e2 => simp only [hinc] at h; cases h
      | ok keep =>
        simp only [hinc] at h
        by_cases hf : (keep && filter_vcpu values.cores args.vcpu_min
            args.vcpu_max && filter_mem values.ram_gb args.mem_min
            args.mem_max && filter_emr values.emr args.emr_only) = true
        · rw [if_pos hf] at h
          cases htail : build_results available args rest with
          | error e2 =>
            simp only [htail] at h
            injection h with h'
            exact ih (htail.trans (by rw [h']))
          | ok tail => simp only [htail] at h; cases h
        · rw [if_neg hf] at h
          exact ih h
    · rw [if_neg hin] at h
      exact ih h

/-- Under the pipeline invariants, the enrichment loop never reaches its
missing-range branch: the branch that would try (and fail) to build the
structured data-integrity error is dead code. -/
theorem enrich_not_format (interrupts : List (Int × InterRange))
    (available : List (String × SpotRec))
    (hinv : ∀ (k : String) (v : SpotRec), pyDictGet available k = some v →
      (pyDictGet interrupts v.r).isSome = true) :
    ∀ lst : List (String × EC2InstanceType),
      (∀ kr, kr ∈ lst → (pyDictGet available kr.1).isSome = true) →
      enrich interrupts available lst ≠
        Except.error SelectError.formatValueError := by
  intro lst
  induction lst with
  | nil => intro _ h; cases h
  | cons e rest ih =>
    obtain ⟨key, entry⟩ := e
    intro hks h
    unfold enrich at h
    cases hget : pyDictGet available key with
    | none =>
      have := hks (key, entry) (List.mem_cons_self _ _)
      rw [hget] at this
      cases this
    | some value =>
      simp only [hget] at h
      cases hir : pyDictGet interrupts value.r with
      | none =>
        have := hinv key value hget
        rw [hir] at this
        cases this
      | some ir =>
        simp only [hir] at h
        cases htail : enrich interrupts available rest with
        | error e2 =>
          simp only [htail] at h
          injection h with h'
          exact ih (fun kr hkr => hks kr (List.mem_cons_of_mem _ hkr))
            (htail.trans (by rw [h']))
        | ok tail => simp only [htail] at h; cases h

/-- For every dataset and argument set, `select_data` never raises the
format-call `ValueError` of the missing-range branch — the guarded raise
of `DataProcessingException` is unreachable, because any surviving record
already had its range index resolved during the pre-filter. -/
theorem select_data_no_format_error (data : SpotData) (args : SejtoArgs) :
    select_data data args ≠ Except.error SelectError.formatValueError := by
  intro h
  unfold select_data at h
  cases h1 : pyDictGet data.spot_advisor args.region with
  | none =>
    simp only [h1] at h
    exact absurd h (by simp)
  | some regionTable =>
    simp only [h1] at h
    cases h2 : pyDictGet regionTable args.os with
    | none =>
      simp only [h2] at h
      exact absurd h (by simp)
    | some osTable =>
      simp only [h2] at h
      cases h3 : pre_filter (data.ranges.map (fun ir => (ir.index, ir)))
          args.savings_min args.savings_max args.inters_min args.inters_max
          osTable with
      | error e =>
        simp only [h3] at h
        injection h with h'
        subst h'
        exact pre_filter_not_format _ _ _ _ _ osTable h3
      | ok available =>
        simp only [h3] at h
        cases h4 : build_results available args data.instance_types with
        | error e =>
          simp only [h4] at h
          injection h with h'
          subst h'
          exact build_results_not_format available args data.instance_types
            h4
        | ok results =>
          simp only [h4] at h
          exact enrich_not_format _ available
            (fun k v hget => pre_filter_get_isSome _ _ _ _ _ osTable
              available h3 k v hget)
            results
            (fun kr hkr => build_results_keys available args
              data.instance_types results h4 kr hkr) h

end Sejto

namespace Sejto

/-- C1: the spec's Classifier round-trip examples. The code (and its own
test suite, `test_parse_ec2_instance_type`) decomposes `c7i-flex.large`
into options `i-flex` — the digit group only consumes `7`, and everything
after it, starting with the letter `i`, lands in the options group — so the
claimed options value `-flex` is wrong for that identifier. -/
theorem parse_c7i_flex_counterexample :
    parse_ec2_instance_type "c7i-flex.large" =
      Except.ok ("c", "7", "i-flex", "large") ∧
    "i-flex" ≠ "-flex" :=
  ⟨rfl, by decide⟩

/-- C1 (amended): the three Classifier round-trip examples as the code
computes them, with options `i-flex` (not `-flex`) for `c7i-flex.large`;
the other two tuples hold exactly as claimed. -/
theorem parse_examples_amended :
    parse_ec2_instance_type "c7i-flex.large" =
      Except.ok ("c", "7", "i-flex", "large") ∧
    parse_ec2_instance_type "u-6tb1.56xlarge" =
      Except.ok ("u", "0", "6tb1", "56xlarge") ∧
    parse_ec2_instance_type "mac2-m2pro.metal" =
      Except.ok ("mac", "2", "-m2pro", "metal") :=
  ⟨rfl, rfl, rfl⟩

/-- C2: evaluation of the pipeline on a dataset violating referential
integrity. The region/OS table references interruption-range index `1`,
the ranges list defines only index `0`, the record passes the savings
filter (savings 80 within the default `[-1, 101]`), and all other filters
are at their defaults — yet `select_data` raises a plain `KeyError` from
the pre-filter comprehension's lookup `interrupts[value["r"]]`, not the
structured `DataProcessingException` its docstring promises (the guarded
raise further down is unreachable; see `select_data_no_format_error`). -/
theorem select_data_missing_range_keyerror :
    select_data
      ⟨[⟨0, "<5%", 5⟩],
       [("eu-west-1", [("Linux", [("t3.micro", ⟨80, 1⟩)])])],
       [("t3.micro", ⟨true, 2, 1⟩)]⟩
      ⟨"eu-west-1", "Linux", -1, 65535, -1, 65535, false, -1, 101, -1, 101,
        false, false⟩ =
      Except.error (SelectError.keyError 1) := by
  rfl

/-- C5: `include_instance_type` returns keep (`Except.ok true`) for the
separator-free identifier `foo` when neither exclusion flag is set — the
flags-off short-circuit runs before the separator validation, so the
predicate does not fail with a data error on every malformed identifier. -/
theorem include_instance_type_counterexample :
    include_instance_type "foo" false false = Except.ok true := by
  rfl

/-- C5 (amended): when at least one of the exclusion flags is set,
`include_instance_type` fails with the data error (`ValueError`) on every
identifier that does not split into exactly two chunks; with both flags
unset it returns keep without validating the identifier. -/
theorem include_instance_type_amended (it : String) (em ev : Bool)
    (hflag : em = true ∨ ev = true)
    (hsep : (pySplit '.' it.data).length ≠ 2) :
    include_instance_type it em ev =
      Except.error EC2ParseError.unexpected_instance_type := by
  have h1 : (!em && !ev) = false := by
    rcases hflag with h | h <;> simp [h]
  unfold include_instance_type
  rw [h1]
  simp only [Bool.false_eq_true, if_false]
  rcases hp : pySplit '.' it.data with _ | ⟨a, _ | ⟨b, _ | ⟨c, l⟩⟩⟩
  · rfl
  · rfl
  · exact absurd (by rw [hp]; rfl) hsep
  · rfl

/-- C5 (witness): the amended theorem applied to identifier `foo` with the
metal-exclusion flag set. -/
theorem include_instance_type_amended_witness :
    include_instance_type "foo" true false =
      Except.error EC2ParseError.unexpected_instance_type :=
  include_instance_type_amended "foo" true false (Or.inl rfl) (by decide)

/-- C6: whenever the Classifier cannot decompose an identifier (parse
returns an error), `filter_instance_type` keeps the record (returns
`true`) regardless of the six configured include/exclude patterns. -/
theorem filter_instance_type_fails_open (it : String)
    (p1 p2 p3 p4 p5 p6 : Option (String → Bool)) (e : EC2ParseError)
    (h : parse_ec2_instance_type it = Except.error e) :
    filter_instance_type it p1 p2 p3 p4 p5 p6 = true := by
  unfold filter_instance_type
  rw [h]

/-- C6 (witness): the unparseable identifier `foo` is kept even with
never-matching include patterns and an always-matching exclude pattern
configured. -/
theorem filter_instance_type_fails_open_witness :
    filter_instance_type "foo"
      (some (fun _ => true)) (some (fun _ => false))
      (some (fun _ => true)) (some (fun _ => false))
      (some (fun _ => true)) (some (fun _ => false)) = true :=
  filter_instance_type_fails_open "foo" _ _ _ _ _ _
    EC2ParseError.unexpected_instance_type rfl

/-- C3: with the local dataset file missing and the remote answering 304
to every request, `update` issues exactly two HTTP requests — the second
(like the first) with no conditional headers, after `data_checksum`,
`http_etag` and `http_last_modified` have been cleared — and raises
`RecursionError`, a class distinct from the transport, filesystem
(`OSError`), status (`ValueError`) and data-integrity errors; no third
request is issued. -/
theorem update_304_contradiction (w : World) (st : DataSetState)
    (hfile : w.file = none)
    (h0 : (w.rsps 0).status = 304)
    (h1 : (w.rsps 1).status = 304) :
    update w st 0 =
      ⟨{ st with
          data_checksum := "", http_etag := "", http_last_modified := "" },
       [get_data_headers [], get_data_headers []],
       Except.error UpdateError.recursionError⟩ := by
  have hcc : check_checksum w.file st = false := by
    rw [hfile]; exact check_checksum_of_missing_file st
  unfold update update_retry
  simp only [hfile, h0, h1, hcc, if_true, if_false, Bool.false_eq_true,
    make_caching_headers_cleared, check_checksum_of_missing_file]

/-- C3 (witness): the 304-contradiction run on a concrete always-304
world, starting from a populated cache state. -/
theorem update_304_contradiction_witness :
    update
      ⟨fun _ => ⟨304, [("ETag", "e304"), ("Last-Modified", "lm304")], "x"⟩,
        none, true⟩
      ⟨"olddata", "oldsum", "olde", "oldlm"⟩ 0 =
      ⟨⟨"olddata", "", "", ""⟩,
       [get_data_headers [], get_data_headers []],
       Except.error UpdateError.recursionError⟩ :=
  update_304_contradiction _ _ rfl rfl rfl

/-- C4: whenever the stored checksum does not validate against the local
file (`check_checksum` is false — stored checksum empty, file missing, or
digest mismatch), the HTTP request `update` issues carries no conditional
headers: its header list is exactly the fixed User-Agent, so the stored
`http_etag` / `http_last_modified` never reach the wire and a false
not-modified answer cannot be provoked by them. -/
theorem update_checksum_mismatch_unconditional (w : World)
    (st : DataSetState) (h : check_checksum w.file st = false) :
    (update w st 0).reqs.head? = some (get_data_headers []) := by
  unfold update update_retry
  simp only [h, Bool.false_eq_true, if_false]
  split
  · split
    · rfl
    · split <;> rfl
  · split
    · split <;> rfl
    · rfl

/-- C4 (witness): a state holding caching tokens but a checksum that does
not match the local file content sends only the User-Agent header. -/
theorem update_checksum_mismatch_unconditional_witness :
    (update ⟨fun _ => ⟨200, [], "fresh"⟩, some "content", true⟩
      ⟨"d", "wrongsum", "etag1", "lm1"⟩ 0).reqs.head? =
      some (get_data_headers []) :=
  update_checksum_mismatch_unconditional _ _ (by rfl)

/-- C9: on the 304-contradiction retry path that ends in a successful 200,
the caching tokens finally stored come from the headers of the original
304 response — the outer call's extraction overwrites whatever the retry
stored from the 200 response — and the run reports success. -/
theorem update_retry_tokens_from_304 (w : World) (st : DataSetState)
    (hfile : w.file = none)
    (h0 : (w.rsps 0).status = 304)
    (h1 : (w.rsps 1).status = 200)
    (hw : w.writeOk = true) :
    (update w st 0).state.http_etag = extracted_etag (w.rsps 0).headers ∧
    (update w st 0).state.http_last_modified =
      extracted_last_modified (w.rsps 0).headers ∧
    (update w st 0).result = Except.ok () := by
  have h304 : ((200 : Int) = 304) = False := by decide
  unfold update update_retry
  simp only [hfile, h0, h1, hw, check_checksum_of_missing_file,
    Bool.false_eq_true, if_false, if_true, h304]
  exact ⟨(extract_caching_headers_tokens _ _).1,
    (extract_caching_headers_tokens _ _).2, trivial⟩

/-- C9 (witness): a concrete run whose 304 and 200 responses carry
different tokens; the final tokens are the 304's. -/
theorem update_retry_tokens_from_304_witness :
    (update
      ⟨fun n =>
        if n = 0
        then ⟨304, [("ETag", "e304"), ("Last-Modified", "lm304")], "x"⟩
        else ⟨200, [("ETag", "e200"), ("Last-Modified", "lm200")], "body"⟩,
        none, true⟩
      ⟨"olddata", "oldsum", "olde", "oldlm"⟩ 0).state.http_etag =
      extracted_etag [("ETag", "e304"), ("Last-Modified", "lm304")] ∧
    (update
      ⟨fun n =>
        if n = 0
        then ⟨304, [("ETag", "e304"), ("Last-Modified", "lm304")], "x"⟩
        else ⟨200, [("ETag", "e200"), ("Last-Modified", "lm200")], "body"⟩,
        none, true⟩
      ⟨"olddata", "oldsum", "olde", "oldlm"⟩ 0).state.http_last_modified =
      extracted_last_modified
        [("ETag", "e304"), ("Last-Modified", "lm304")] ∧
    (update
      ⟨fun n =>
        if n = 0
        then ⟨304, [("ETag", "e304"), ("Last-Modified", "lm304")], "x"⟩
        else ⟨200, [("ETag", "e200"), ("Last-Modified", "lm200")], "body"⟩,
        none, true⟩
      ⟨"olddata", "oldsum", "olde", "oldlm"⟩ 0).result = Except.ok () :=
  update_retry_tokens_from_304 _ _ rfl rfl rfl rfl

/-- C10: on a 200 response with a failing local write, `update` escapes
with `OSError` while the in-memory `data` has already been replaced by
the fetched body and `data_checksum`, `http_etag`, `http_last_modified`
still hold their previous values — the success path is not atomic. -/
theorem update_write_failure_partial (w : World) (st : DataSetState)
    (h0 : (w.rsps 0).status = 200) (hw : w.writeOk = false) :
    (update w st 0).result = Except.error UpdateError.osError ∧
    (update w st 0).state.data = (w.rsps 0).body ∧
    (update w st 0).state.data_checksum = st.data_checksum ∧
    (update w st 0).state.http_etag = st.http_etag ∧
    (update w st 0).state.http_last_modified = st.http_last_modified := by
  have h304 : ((200 : Int) = 304) = False := by decide
  unfold update
  simp only [h0, hw, h304, Bool.false_eq_true, if_false, if_true]
  exact ⟨trivial, trivial, trivial, trivial, trivial⟩

/-- C10 (witness): a concrete 200-with-failed-write run, starting from a
cache state with non-trivial tokens. -/
theorem update_write_failure_partial_witness :
    (update ⟨fun _ => ⟨200, [("ETag", "e200")], "newbody"⟩, some "old",
        false⟩
      ⟨"olddata", "oldsum", "olde", "oldlm"⟩ 0).result =
      Except.error UpdateError.osError ∧
    (update ⟨fun _ => ⟨200, [("ETag", "e200")], "newbody"⟩, some "old",
        false⟩
      ⟨"olddata", "oldsum", "olde", "oldlm"⟩ 0).state.data = "newbody" ∧
    (update ⟨fun _ => ⟨200, [("ETag", "e200")], "newbody"⟩, some "old",
        false⟩
      ⟨"olddata", "oldsum", "olde", "oldlm"⟩ 0).state.data_checksum =
      "oldsum" ∧
    (update ⟨fun _ => ⟨200, [("ETag", "e200")], "newbody"⟩, some "old",
        false⟩
      ⟨"olddata", "oldsum", "olde", "oldlm"⟩ 0).state.http_etag = "olde" ∧
    (update ⟨fun _ => ⟨200, [("ETag", "e200")], "newbody"⟩, some "old",
        false⟩
      ⟨"olddata", "oldsum", "olde", "oldlm"⟩ 0).state.http_last_modified =
      "oldlm" :=
  update_write_failure_partial _ _ rfl rfl

/-- C7: in the built-in series catalog, the compiled pattern for series
`m` finds no match anywhere in `mac`, the pattern for `c` none in `mac`,
and the pattern for `t` none in `trn`, while each of the three patterns
still matches its own series string. -/
theorem series_pattern_disambiguation :
    facet_search (series_pattern "m") "mac" = false ∧
    facet_search (series_pattern "c") "mac" = false ∧
    facet_search (series_pattern "t") "trn" = false ∧
    facet_search (series_pattern "m") "m" = true ∧
    facet_search (series_pattern "c") "c" = true ∧
    facet_search (series_pattern "t") "t" = true :=
  ⟨rfl, rfl, rfl, rfl, rfl, rfl⟩

/-- C8: the claim quantifies over all `min` and `max`, but on an empty
interval the predicates discard the boundary values: with `min = 1`,
`max = 0` the interruption predicate returns discard at `value = min`,
where the claim demands keep. -/
theorem filter_inters_boundary_counterexample :
    filter_inters 1 1 0 = false := by
  decide

/-- C8 (amended): whenever `min ≤ max`, every numeric range predicate
(vCPU, memory, savings, interruptions) keeps both boundary values and
discards `min - 1` and `max + 1` (closed-interval semantics). -/
theorem range_predicates_closed_interval (a b : Int) (q r : ℚ)
    (hab : a ≤ b) (hqr : q ≤ r) :
    (filter_vcpu a a b = true ∧ filter_vcpu b a b = true ∧
     filter_vcpu (a - 1) a b = false ∧ filter_vcpu (b + 1) a b = false) ∧
    (filter_inters a a b = true ∧ filter_inters b a b = true ∧
     filter_inters (a - 1) a b = false ∧
     filter_inters (b + 1) a b = false) ∧
    (filter_savings a a b = true ∧ filter_savings b a b = true ∧
     filter_savings (a - 1) a b = false ∧
     filter_savings (b + 1) a b = false) ∧
    (filter_mem q q r = true ∧ filter_mem r q r = true ∧
     filter_mem (q - 1) q r = false ∧ filter_mem (r + 1) q r = false) := by
  unfold filter_vcpu filter_inters filter_savings filter_mem
  refine ⟨⟨?_, ?_, ?_, ?_⟩, ⟨?_, ?_, ?_, ?_⟩, ⟨?_, ?_, ?_, ?_⟩,
    ⟨?_, ?_, ?_, ?_⟩⟩
  · exact if_pos ⟨le_refl a, hab⟩
  · exact if_pos ⟨hab, le_refl b⟩
  · exact if_neg (fun hc => by omega)
  · exact if_neg (fun hc => by omega)
  · exact if_pos ⟨le_refl a, hab⟩
  · exact if_pos ⟨hab, le_refl b⟩
  · exact if_neg (fun hc => by omega)
  · exact if_neg (fun hc => by omega)
  · exact if_pos ⟨le_refl a, hab⟩
  · exact if_pos ⟨hab, le_refl b⟩
  · exact if_neg (fun hc => by omega)
  · exact if_neg (fun hc => by omega)
  · exact if_pos ⟨le_refl q, hqr⟩
  · exact if_pos ⟨hqr, le_refl r⟩
  · exact if_neg (fun hc => absurd hc.1 (by linarith))
  · exact if_neg (fun hc => absurd hc.2 (by linarith))

/-- C8 (witness): the amended closed-interval property at the concrete
bounds `[2, 7]` (integers) and `[1/2, 7/2]` (memory, in GB). -/
theorem range_predicates_closed_interval_witness :
    (filter_vcpu 2 2 7 = true ∧ filter_vcpu 7 2 7 = true ∧
     filter_vcpu (2 - 1) 2 7 = false ∧ filter_vcpu (7 + 1) 2 7 = false) ∧
    (filter_inters 2 2 7 = true ∧ filter_inters 7 2 7 = true ∧
     filter_inters (2 - 1) 2 7 = false ∧
     filter_inters (7 + 1) 2 7 = false) ∧
    (filter_savings 2 2 7 = true ∧ filter_savings 7 2 7 = true ∧
     filter_savings (2 - 1) 2 7 = false ∧
     filter_savings (7 + 1) 2 7 = false) ∧
    (filter_mem (1 / 2) (1 / 2) (7 / 2) = true ∧
     filter_mem (7 / 2) (1 / 2) (7 / 2) = true ∧
     filter_mem (1 / 2 - 1) (1 / 2) (7 / 2) = false ∧
     filter_mem (7 / 2 + 1) (1 / 2) (7 / 2) = false) :=
  range_predicates_closed_interval 2 7 (1 / 2) (7 / 2) (by norm_num)
    (by norm_num)

end Sejto
